import Mathlib

/-!
Shallow embedding of the persona-import service in `src/app.py`
(Flask + pandas + Firestore).  Python dictionaries produced by
`pandas.DataFrame.to_dict('records')` are modelled as association lists
from column name to a dynamic value; the Firestore collection is an
association list from document id to record.  Randomness
(`generate_custom_id`), the pandas CSV parser and per-row Firestore write
failures are external collaborators and enter as explicit parameters.
-/

/-- A dynamic (Python-style) value stored in a row cell: a string as read
from the CSV, or an int / bool produced by the coercions in
`validate_persona_data`. -/
inductive Value where
  | str (s : String)
  | int (n : Int)
  | bool (b : Bool)
  deriving DecidableEq, Repr

/-- One RawRow: a Python dict from column name to cell value, as produced
by `df.to_dict('records')`. -/
def Row : Type := List (String × Value)

instance : DecidableEq Row := by
  unfold Row
  infer_instance

/-- The Firestore collection `personas`: document id to stored record. -/
def Store : Type := List (String × Row)

/-- First-match association-list lookup, Python dict read `d[k]`. -/
def assocLookup {α : Type} : List (String × α) → String → Option α
  | [], _ => none
  | (k', v) :: rest, k => if k' == k then some v else assocLookup rest k

/-- Python membership test `k in d` on a dict. -/
def dictContains (d : Row) (k : String) : Bool :=
  (assocLookup d k).isSome

/-- Total read `d[k]` used only where presence was already checked; the
default is never reached on those paths. -/
def dictGet (d : Row) (k : String) : Value :=
  (assocLookup d k).getD (Value.str "")

/-- Python dict assignment `d[k] = v`: replace the value at `k` in place,
or append the key if absent. -/
def dictSet : Row → String → Value → Row
  | [], k, v => [(k, v)]
  | (k', v') :: rest, k, v =>
      if k' == k then (k, v) :: rest else (k', v') :: dictSet rest k v

/-- Python `str.strip()` as applied implicitly by `int(str)`: drop leading
and trailing whitespace. -/
def pyStrTrim (s : String) : String :=
  String.mk (((s.toList.dropWhile Char.isWhitespace).reverse.dropWhile
    Char.isWhitespace).reverse)

/-- Value of a nonempty all-digit character list, else `none`. -/
def allDigitsNum (cs : List Char) : Option Nat :=
  if cs.isEmpty then none
  else if cs.all Char.isDigit then
    some (cs.foldl (fun a c => a * 10 + (c.toNat - 48)) 0)
  else none

/-- Python `int(s)` on a string: optional sign and decimal digits after
stripping whitespace; `none` models the `ValueError` raise. -/
def pyIntOfString (s : String) : Option Int :=
  match (pyStrTrim s).toList with
  | [] => none
  | '+' :: rest => (allDigitsNum rest).map (fun n => (n : Int))
  | '-' :: rest => (allDigitsNum rest).map (fun n => -(n : Int))
  | cs => (allDigitsNum cs).map (fun n => (n : Int))

/-- Python `int(v)` on a cell value; `none` models the
`ValueError`/`TypeError` raise caught in `validate_persona_data`. -/
def pyInt : Value → Option Int
  | Value.str s => pyIntOfString s
  | Value.int n => some n
  | Value.bool b => some (if b then 1 else 0)

/-- Python `bool(v)` on a cell value.  On a string it is emptiness
truthiness — it never raises, so it has no failure case. -/
def pyBool : Value → Bool
  | Value.str s => !(s == "")
  | Value.int n => !(n == 0)
  | Value.bool b => b

/-- The fixed required-field order of `validate_persona_data`
(src/app.py lines 46-49). -/
def required_fields : List String :=
  ["name", "last_name", "email", "age", "sex",
   "address", "country", "degree", "university", "status"]

/-- The `for field in required_fields: if field not in data` loop:
first field of the list absent from the row, else `none`. -/
def checkRequired : List String → Row → Option String
  | [], _ => none
  | f :: fs, data => if dictContains data f then checkRequired fs data else some f

/-- Result of `validate_persona_data`: the returned `(bool, message)` pair
together with the (possibly mutated) row dict, since the function assigns
the coerced `age` and `status` back into `data` and the caller persists
that mutated dict. -/
structure VResult where
  ok : Bool
  msg : String
  data : Row
  deriving DecidableEq

/-- `validate_persona_data` (src/app.py lines 42-62): reject at the first
missing required field; then coerce `age` with `int(...)` (failure caught
as the coercion error) and `status` with `bool(...)` (total). -/
def validate_persona_data (data : Row) : VResult :=
  match checkRequired required_fields data with
  | some f => ⟨false, "Campo requerido faltante: " ++ f, data⟩
  | none =>
    match pyInt (dictGet data "age") with
    | none =>
        ⟨false,
         "Los campos \x27age\x27 y \x27status\x27 deben ser numéricos/booleanos",
         data⟩
    | some a =>
      let d1 := dictSet data "age" (Value.int a)
      let d2 := dictSet d1 "status" (Value.bool (pyBool (dictGet d1 "status")))
      ⟨true, "Datos válidos", d2⟩

example : pyBool (Value.str "false") = true := by decide
example : pyBool (Value.str "") = false := by decide
example : pyIntOfString "34" = some 34 := by decide
example : pyIntOfString "abc" = none := by decide

/-- Firestore `collection.document(id).set(record)`: overwrite the document
at `id`.  Lookups are first-match, so prepending realises overwrite. -/
def storeSet (s : Store) (id : String) (r : Row) : Store :=
  (id, r) :: s

/-- Mutable state of the insertion loop of `upload_personas_csv`
(src/app.py lines 110-131): `inserted_count`, the `errors` list as
(file-line, reason) pairs later rendered "Fila n: reason", and the store. -/
structure ImportState where
  inserted : Nat
  errors : List (Nat × String)
  store : Store

/-- One iteration of the loop at src/app.py lines 114-131 on the row with
zero-based index `idx`.  `persist idx = some e` models the Firestore
`set` call raising an exception with message `e`, caught by the per-row
`except` and appended as a rejection; `ids idx` is the fresh id returned
by `generate_custom_id`. -/
def processRow (persist : Nat → Option String) (ids : Nat → String)
    (idx : Nat) (row : Row) (st : ImportState) : ImportState :=
  let v := validate_persona_data row
  if v.ok then
    match persist idx with
    | none =>
        { st with inserted := st.inserted + 1,
                  store := storeSet st.store (ids idx) v.data }
    | some e => { st with errors := st.errors ++ [(idx + 2, e)] }
  else
    { st with errors := st.errors ++ [(idx + 2, v.msg)] }

/-- The loop from a starting index, in original row order. -/
def processRowsFrom (persist : Nat → Option String) (ids : Nat → String) :
    Nat → List Row → ImportState → ImportState
  | _, [], st => st
  | idx, row :: rest, st =>
      processRowsFrom persist ids (idx + 1) rest (processRow persist ids idx row st)

/-- The whole insertion loop, starting from `enumerate`'s index 0 with
zero inserts and no errors. -/
def processRows (persist : Nat → Option String) (ids : Nat → String)
    (rows : List Row) (store0 : Store) : ImportState :=
  processRowsFrom persist ids 0 rows ⟨0, [], store0⟩

/-- Outcome of `upload_personas_csv` after the upload was saved to the
temporary path: HTTP status, JSON body fields, whether `os.remove` ran on
the temporary file, and the resulting store. -/
structure UploadResult where
  status : Nat
  success : Bool
  message : String
  insertedCount : Nat
  totalRecords : Nat
  errors : List (Nat × String)
  fileRemoved : Bool
  store : Store

/-- `upload_personas_csv` from the point where the file is saved
(src/app.py lines 99-147).  `parsed` is the outcome of `pd.read_csv` plus
`to_dict('records')`: `.error e` is the caught parse exception, whose
branch returns 400 before reaching the `os.remove` cleanup; `.ok rows`
runs the insertion loop, removes the file, and answers 200 exactly when
`inserted_count > 0`, with `success` set to `True` in the body either
way. -/
def upload_personas_csv (parsed : Except String (List Row))
    (persist : Nat → Option String) (ids : Nat → String)
    (store0 : Store) : UploadResult :=
  match parsed with
  | Except.error e =>
      { status := 400, success := false,
        message := "Error leyendo el archivo CSV: " ++ e,
        insertedCount := 0, totalRecords := 0, errors := [],
        fileRemoved := false, store := store0 }
  | Except.ok rows =>
      let st := processRows persist ids rows store0
      { status := if st.inserted > 0 then 200 else 400,
        success := true,
        message :=
          if st.errors.isEmpty then
            "Se insertaron " ++ toString st.inserted ++ " registros exitosamente"
          else
            "Se insertaron " ++ toString st.inserted ++ " de " ++
              toString rows.length ++ " registros",
        insertedCount := st.inserted, totalRecords := rows.length,
        errors := st.errors, fileRemoved := true, store := st.store }

/-- `get_person` (src/app.py lines 194-204): fetch the document, add its
id under key "id"; `none` is the 404 branch. -/
def get_person (store : Store) (pid : String) : Option Row :=
  match assocLookup store pid with
  | some r => some (dictSet r "id" (Value.str pid))
  | none => none

/-- The clamp `if limit > 10: limit = 10` of `get_persons`
(src/app.py lines 162-163). -/
def clampLimit (limit0 : Int) : Int :=
  if limit0 > 10 then 10 else limit0

/-- Response of `get_persons`: HTTP status, `success`, number of returned
documents, and the pagination block. -/
structure PersonsResult where
  status : Nat
  success : Bool
  dataLen : Nat
  total : Int
  page : Int
  limit : Int
  pages : Int

/-- `get_persons` (src/app.py lines 156-192).  The query slice
`offset(offset).limit(limit)` is modelled by drop/take on the store; the
page count `(total + limit - 1) // limit` is Python floor division, so a
clamped limit of 0 raises `ZeroDivisionError`, caught by the handler as a
500 with no pagination block (modelled by zeroed fields). -/
def get_persons (store : Store) (limit0 page : Int) : PersonsResult :=
  let limit := clampLimit limit0
  let offset := (page - 1) * limit
  if limit == 0 then
    { status := 500, success := false, dataLen := 0,
      total := 0, page := 0, limit := 0, pages := 0 }
  else
    { status := 200, success := true,
      dataLen := ((store.drop offset.toNat).take limit.toNat).length,
      total := (store.length : Int), page := page, limit := limit,
      pages := Int.fdiv ((store.length : Int) + limit - 1) limit }

/-- A fully populated raw row whose `age` cell is the given string and
whose `status` cell is the given value. -/
def sampleRow (age : String) (status : Value) : Row :=
  [("name", Value.str "Ada"), ("last_name", Value.str "Lovelace"),
   ("email", Value.str "ada@example.com"), ("age", Value.str age),
   ("sex", Value.str "F"), ("address", Value.str "Calle 1"),
   ("country", Value.str "CO"), ("degree", Value.str "Math"),
   ("university", Value.str "UNAL"), ("status", status)]

/-- The sample row with its `university` field dropped. -/
def sampleRowNoUniversity (age : String) : Row :=
  (sampleRow age (Value.str "true")).filter (fun p => !(p.1 == "university"))

/-- A store holding 25 documents, for the pagination example. -/
def exampleStore25 : Store :=
  (List.range 25).map (fun i => (toString i, sampleRow "30" (Value.str "true")))


theorem assocLookup_dictSet_self (d : Row) (k : String) (v : Value) :
    assocLookup (dictSet d k v) k = some v := by
  induction d with
  | nil => simp [dictSet, assocLookup]
  | cons p rest ih =>
    obtain ⟨k', v'⟩ := p
    by_cases h : k' = k
    · simp [dictSet, assocLookup, h]
    · simp [dictSet, assocLookup, h, ih]

theorem assocLookup_dictSet_ne (d : Row) (k k' : String) (v : Value)
    (h : k ≠ k') : assocLookup (dictSet d k v) k' = assocLookup d k' := by
  induction d with
  | nil => simp [dictSet, assocLookup, h]
  | cons p rest ih =>
    obtain ⟨k0, v0⟩ := p
    by_cases hk : k0 = k
    · subst hk
      simp [dictSet, assocLookup, h]
    · simp [dictSet, assocLookup, hk, ih]

theorem checkRequired_eq_find (fs : List String) (d : Row) :
    checkRequired fs d = fs.find? (fun f => ! dictContains d f) := by
  induction fs with
  | nil => rfl
  | cons f rest ih =>
    by_cases h : dictContains d f
    · simp [checkRequired, List.find?, h, ih]
    · simp [checkRequired, List.find?, h]

theorem validate_missing (data : Row) (f : String)
    (h : checkRequired required_fields data = some f) :
    validate_persona_data data
      = ⟨false, "Campo requerido faltante: " ++ f, data⟩ := by
  unfold validate_persona_data
  rw [h]

theorem validate_all_present (data : Row) (a : Int)
    (h1 : checkRequired required_fields data = none)
    (h2 : pyInt (dictGet data "age") = some a) :
    validate_persona_data data
      = ⟨true, "Datos válidos",
         dictSet (dictSet data "age" (Value.int a)) "status"
           (Value.bool (pyBool (dictGet (dictSet data "age" (Value.int a)) "status")))⟩ := by
  unfold validate_persona_data
  rw [h1, h2]

/-- The rejection entries the loop appends from index `idx` on: one per
invalid row and one per persistence failure of a valid row, in row
order. -/
def rejectionsFrom (persist : Nat → Option String) :
    Nat → List Row → List (Nat × String)
  | _, [] => []
  | idx, row :: rest =>
      (let v := validate_persona_data row
       if v.ok then
         match persist idx with
         | none => []
         | some e => [(idx + 2, e)]
       else [(idx + 2, v.msg)]) ++ rejectionsFrom persist (idx + 1) rest

theorem processRowsFrom_errors (persist : Nat → Option String)
    (ids : Nat → String) (rows : List Row) :
    ∀ (idx : Nat) (st : ImportState),
      (processRowsFrom persist ids idx rows st).errors
        = st.errors ++ rejectionsFrom persist idx rows := by
  induction rows with
  | nil => intro idx st; simp [processRowsFrom, rejectionsFrom]
  | cons row rest ih =>
    intro idx st
    rw [processRowsFrom, ih, rejectionsFrom]
    unfold processRow
    by_cases h : (validate_persona_data row).ok
    · simp only [h, if_true]
      cases persist idx with
      | none => simp
      | some e => simp
    · simp only [h]
      simp

theorem processRowsFrom_inserted (ids : Nat → String) (rows : List Row) :
    ∀ (idx : Nat) (st : ImportState),
      (processRowsFrom (fun _ => none) ids idx rows st).inserted
        = st.inserted + rows.countP (fun r => (validate_persona_data r).ok) := by
  induction rows with
  | nil => intro idx st; simp [processRowsFrom]
  | cons row rest ih =>
    intro idx st
    rw [processRowsFrom, ih]
    unfold processRow
    by_cases h : (validate_persona_data row).ok
    · simp [h, List.countP_cons, Nat.add_comm, Nat.add_assoc]
    · simp [h, List.countP_cons]

theorem rejectionsFrom_length_allok (rows : List Row) :
    ∀ idx : Nat,
      (rejectionsFrom (fun _ => none) idx rows).length
        = rows.countP (fun r => !(validate_persona_data r).ok) := by
  induction rows with
  | nil => intro idx; simp [rejectionsFrom]
  | cons row rest ih =>
    intro idx
    rw [rejectionsFrom]
    by_cases h : (validate_persona_data row).ok
    · simp [h, ih, List.countP_cons]
    · simp [h, ih, List.countP_cons]

theorem countP_bool_add_not (rows : List Row) (p : Row → Bool) :
    rows.countP (fun r => p r) + rows.countP (fun r => !(p r)) = rows.length := by
  induction rows with
  | nil => simp
  | cons row rest ih =>
    by_cases h : p row
    · simp [List.countP_cons, h]
      omega
    · simp [List.countP_cons, h]
      omega

theorem rejectionsFrom_line_lb (persist : Nat → Option String)
    (rows : List Row) :
    ∀ (idx : Nat) (e : Nat × String),
      e ∈ rejectionsFrom persist idx rows → idx + 2 ≤ e.1 := by
  induction rows with
  | nil => intro idx e h; simp [rejectionsFrom] at h
  | cons row rest ih =>
    intro idx e h
    rw [rejectionsFrom] at h
    simp only [List.mem_append] at h
    cases h with
    | inl h =>
      by_cases hv : (validate_persona_data row).ok
      · simp only [hv, if_true] at h
        cases hp : persist idx with
        | none => rw [hp] at h; simp at h
        | some msg => rw [hp] at h; simp at h; simp [h]
      · simp only [hv] at h
        simp at h
        simp [h]
    | inr h =>
      have := ih (idx + 1) e h
      omega

theorem rejectionsFrom_pairwise (persist : Nat → Option String)
    (rows : List Row) :
    ∀ idx : Nat,
      (rejectionsFrom persist idx rows).Pairwise (fun a b => a.1 < b.1) := by
  induction rows with
  | nil => intro idx; simp [rejectionsFrom]
  | cons row rest ih =>
    intro idx
    rw [rejectionsFrom]
    rw [List.pairwise_append]
    refine ⟨?_, ?_, ?_⟩
    · by_cases hv : (validate_persona_data row).ok
      · simp only [hv, if_true]
        cases persist idx with
        | none => simp
        | some msg => simp
      · simp only [hv]
        simp
    · exact ih (idx + 1)
    · intro a ha b hb
      have hb' := rejectionsFrom_line_lb persist rest (idx + 1) b hb
      by_cases hv : (validate_persona_data row).ok
      · simp only [hv, if_true] at ha
        cases hp : persist idx with
        | none => rw [hp] at ha; simp at ha
        | some msg =>
          rw [hp] at ha; simp at ha
          have : a.1 = idx + 2 := by rw [ha]
          omega
      · simp only [hv] at ha
        simp at ha
        have : a.1 = idx + 2 := by rw [ha]
        omega

theorem rejectionsFrom_mem_invalid (persist : Nat → Option String)
    (rows : List Row) :
    ∀ (idx i : Nat) (r : Row), rows[i]? = some r →
      (validate_persona_data r).ok = false →
      (idx + i + 2, (validate_persona_data r).msg)
        ∈ rejectionsFrom persist idx rows := by
  induction rows with
  | nil => intro idx i r h; simp at h
  | cons row rest ih =>
    intro idx i r h hbad
    cases i with
    | zero =>
      simp at h
      subst h
      rw [rejectionsFrom]
      simp only [hbad]
      simp
    | succ j =>
      simp at h
      have := ih (idx + 1) j r h hbad
      rw [rejectionsFrom]
      simp only [List.mem_append]
      right
      have heq : idx + 1 + j + 2 = idx + (j + 1) + 2 := by omega
      rw [heq] at this
      exact this

/-- C1, counterexample: on a row whose raw `status` cell is the string
"false", `validate_persona_data` coerces `status` to boolean `true`
(Python `bool("false")` is `True`), not to `false` as the claim states. -/
theorem c1_counterexample :
    assocLookup (validate_persona_data (sampleRow "30" (Value.str "false"))).data "status"
      = some (Value.bool true)
    ∧ assocLookup (validate_persona_data (sampleRow "30" (Value.str "false"))).data "status"
      ≠ some (Value.bool false) := by
  decide

/-- C1 (amended): for every row whose ten required fields are present, the
status coercion maps the textual empty string to `false` and every
non-empty string — including "false" and "0" — to `true`; an
already-boolean value passes through unchanged. -/
theorem c1_status_coercion :
    (∀ s : String, pyBool (Value.str s) = !(s == ""))
    ∧ (∀ b : Bool, pyBool (Value.bool b) = b)
    ∧ (∀ (data : Row) (a : Int),
        checkRequired required_fields data = none →
        pyInt (dictGet data "age") = some a →
        assocLookup (validate_persona_data data).data "status"
          = some (Value.bool (pyBool (dictGet data "status")))) := by
  refine ⟨fun s => rfl, fun b => rfl, ?_⟩
  intro data a h1 h2
  rw [validate_all_present data a h1 h2]
  dsimp only
  rw [assocLookup_dictSet_self]
  have h4 : dictGet (dictSet data "age" (Value.int a)) "status" = dictGet data "status" := by
    unfold dictGet
    rw [assocLookup_dictSet_ne data "age" "status" (Value.int a) (by decide)]
  rw [h4]

/-- Witness for C1: the amended theorem applied to a concrete full row
whose status cell is the string "false". -/
theorem c1_status_coercion_witness :
    checkRequired required_fields (sampleRow "30" (Value.str "false")) = none
    ∧ pyInt (dictGet (sampleRow "30" (Value.str "false")) "age") = some 30
    ∧ assocLookup (validate_persona_data (sampleRow "30" (Value.str "false"))).data "status"
        = some (Value.bool (pyBool (dictGet (sampleRow "30" (Value.str "false")) "status"))) :=
  ⟨by decide, by decide,
   c1_status_coercion.2.2 (sampleRow "30" (Value.str "false")) 30 (by decide) (by decide)⟩

/-- C5: the validator checks the ten required fields in the fixed source
order, rejects naming the first missing one (missingness before type
checks, for any row, so also when `age` would not coerce), and when all
fields are present age "34" coerces to integer 34 while age "abc" yields
the coercion rejection. -/
theorem c5_required_field_order_and_age :
    required_fields
      = ["name", "last_name", "email", "age", "sex",
         "address", "country", "degree", "university", "status"]
    ∧ (∀ data : Row,
        checkRequired required_fields data
          = required_fields.find? (fun f => ! dictContains data f))
    ∧ (∀ (data : Row) (f : String),
        checkRequired required_fields data = some f →
        validate_persona_data data
          = ⟨false, "Campo requerido faltante: " ++ f, data⟩)
    ∧ (validate_persona_data (sampleRow "34" (Value.str "true"))).ok = true
    ∧ assocLookup (validate_persona_data (sampleRow "34" (Value.str "true"))).data "age"
        = some (Value.int 34)
    ∧ validate_persona_data (sampleRow "abc" (Value.str "true"))
        = ⟨false,
           "Los campos \x27age\x27 y \x27status\x27 deben ser numéricos/booleanos",
           sampleRow "abc" (Value.str "true")⟩
    ∧ validate_persona_data (sampleRowNoUniversity "abc")
        = ⟨false, "Campo requerido faltante: university",
           sampleRowNoUniversity "abc"⟩ := by
  refine ⟨rfl, ?_, ?_, by decide, by decide, by decide, by decide⟩
  · intro data
    exact checkRequired_eq_find required_fields data
  · intro data f h
    exact validate_missing data f h

/-- Witness for C5: the first-missing-field clause applied to the empty
row, whose first missing required field is "name". -/
theorem c5_required_field_order_witness :
    checkRequired required_fields ([] : Row) = some "name"
    ∧ validate_persona_data ([] : Row)
        = ⟨false, "Campo requerido faltante: " ++ "name", ([] : Row)⟩ :=
  ⟨by decide, c5_required_field_order_and_age.2.2.1 [] "name" (by decide)⟩

/-- C10: when all ten required fields are present and `age` parses as an
integer, the validator accepts the row whatever the `status` cell holds:
`pyBool` (Python `bool(...)`) is total on every cell value, in particular
on every string, so the coercion-failure branch cannot be reached through
`status`. -/
theorem c10_status_coercion_total (data : Row) (a : Int)
    (h1 : checkRequired required_fields data = none)
    (h2 : pyInt (dictGet data "age") = some a) :
    (validate_persona_data data).ok = true := by
  rw [validate_all_present data a h1 h2]

/-- Witness for C10: a full row with an arbitrary non-boolean-looking
status string is accepted. -/
theorem c10_status_coercion_total_witness :
    checkRequired required_fields (sampleRow "34" (Value.str "whatever")) = none
    ∧ pyInt (dictGet (sampleRow "34" (Value.str "whatever")) "age") = some 34
    ∧ (validate_persona_data (sampleRow "34" (Value.str "whatever"))).ok = true :=
  ⟨by decide, by decide,
   c10_status_coercion_total (sampleRow "34" (Value.str "whatever")) 34
     (by decide) (by decide)⟩

/-- C3: when every persistence call succeeds, an import whose upload parses
into N rows of which K fail validation ends with accepted + rejected = N
and rejected = K, where accepted is `inserted_count` and rejected the
length of the `errors` list. -/
theorem c3_partial_success_counts (rows : List Row) (ids : Nat → String)
    (store0 : Store) :
    (processRows (fun _ => none) ids rows store0).inserted
        + (processRows (fun _ => none) ids rows store0).errors.length
      = rows.length
    ∧ (processRows (fun _ => none) ids rows store0).errors.length
      = rows.countP (fun r => !(validate_persona_data r).ok) := by
  have hi := processRowsFrom_inserted ids rows 0 ⟨0, [], store0⟩
  have he := processRowsFrom_errors (fun _ => none) ids rows 0 ⟨0, [], store0⟩
  have hl := rejectionsFrom_length_allok rows 0
  simp only [List.nil_append] at he
  have hi' : (processRows (fun _ => none) ids rows store0).inserted
      = rows.countP (fun r => (validate_persona_data r).ok) := by
    unfold processRows
    rw [hi]
    simp
  have he' : (processRows (fun _ => none) ids rows store0).errors.length
      = rows.countP (fun r => !(validate_persona_data r).ok) := by
    unfold processRows
    rw [he, hl]
  rw [hi', he']
  exact ⟨countP_bool_add_not rows (fun r => (validate_persona_data r).ok), rfl⟩

/-- C4: rejection entries carry strictly increasing file-line numbers in
input order, and a row at zero-based data index i that fails validation is
reported against file line i + 2 (line 1 being the header). -/
theorem c4_rejection_line_numbers (persist : Nat → Option String)
    (ids : Nat → String) (rows : List Row) (store0 : Store) :
    (processRows persist ids rows store0).errors.Pairwise (fun a b => a.1 < b.1)
    ∧ (∀ (i : Nat) (r : Row), rows[i]? = some r →
        (validate_persona_data r).ok = false →
        (i + 2, (validate_persona_data r).msg)
          ∈ (processRows persist ids rows store0).errors) := by
  have he := processRowsFrom_errors persist ids rows 0 ⟨0, [], store0⟩
  unfold processRows
  rw [he]
  simp only [List.nil_append]
  constructor
  · exact rejectionsFrom_pairwise persist rows 0
  · intro i r h hbad
    have hm := rejectionsFrom_mem_invalid persist rows 0 i r h hbad
    simpa using hm

/-- Witness for C4: in a one-row import whose row is the empty dict, the
rejection for data index 0 appears against file line 2. -/
theorem c4_rejection_line_numbers_witness :
    ([([] : Row)])[0]? = some ([] : Row)
    ∧ (validate_persona_data ([] : Row)).ok = false
    ∧ (0 + 2, (validate_persona_data ([] : Row)).msg)
        ∈ (processRows (fun _ => none) (fun _ => "doc") [([] : Row)] []).errors :=
  ⟨rfl, by decide,
   (c4_rejection_line_numbers (fun _ => none) (fun _ => "doc") [([] : Row)] []).2
     0 [] rfl (by decide)⟩

/-- C2, counterexample: an import whose single row is rejected completes
with inserted_count = 0, yet the JSON body still carries success = true —
only the HTTP status (400) reports the failure, contradicting the claim
that the top-level success flag is false. -/
theorem c2_counterexample :
    (upload_personas_csv (Except.ok [([] : Row)]) (fun _ => none)
        (fun _ => "doc") []).insertedCount = 0
    ∧ (upload_personas_csv (Except.ok [([] : Row)]) (fun _ => none)
        (fun _ => "doc") []).success = true
    ∧ (upload_personas_csv (Except.ok [([] : Row)]) (fun _ => none)
        (fun _ => "doc") []).status = 400 := by
  refine ⟨rfl, rfl, rfl⟩

/-- C2 (amended): for every completed import the HTTP status is 200
exactly when the accepted count is positive and 400 when it is zero — an
all-rejected import answers 400 — while the JSON body's `success` field
is `true` on every completed import regardless of the counts. -/
theorem c2_success_reporting (rows : List Row) (persist : Nat → Option String)
    (ids : Nat → String) (store0 : Store) :
    (upload_personas_csv (Except.ok rows) persist ids store0).success = true
    ∧ ((upload_personas_csv (Except.ok rows) persist ids store0).status = 200
        ↔ 0 < (upload_personas_csv (Except.ok rows) persist ids store0).insertedCount)
    ∧ ((upload_personas_csv (Except.ok rows) persist ids store0).insertedCount = 0
        → (upload_personas_csv (Except.ok rows) persist ids store0).status = 400) := by
  unfold upload_personas_csv
  dsimp only
  refine ⟨rfl, ?_, ?_⟩
  · by_cases h : (processRows persist ids rows store0).inserted > 0
    · rw [if_pos h]
      exact ⟨fun _ => h, fun _ => rfl⟩
    · rw [if_neg h]
      constructor
      · intro hc; omega
      · intro hc; exact absurd hc h
  · intro h0
    rw [if_neg (by omega)]

/-- Witness for C2: the amended theorem's zero-accepted clause applied to
the one-rejected-row import. -/
theorem c2_success_reporting_witness :
    (upload_personas_csv (Except.ok [([] : Row)]) (fun _ => none)
        (fun _ => "doc") []).insertedCount = 0
    ∧ (upload_personas_csv (Except.ok [([] : Row)]) (fun _ => none)
        (fun _ => "doc") []).status = 400 :=
  ⟨rfl,
   (c2_success_reporting [([] : Row)] (fun _ => none) (fun _ => "doc") []).2.2 rfl⟩

/-- C6, counterexample: when the CSV parse raises, the handler returns
from the except-branch (src/app.py lines 101-105) before reaching the
`os.remove` cleanup at line 134, so the temporarily saved upload is not
released on that exit path. -/
theorem c6_counterexample :
    (upload_personas_csv (Except.error "No columns to parse from file")
        (fun _ => none) (fun _ => "doc") []).fileRemoved = false := rfl

/-- C6 (amended): the temporary upload file is removed on every completed
import, also when rows are rejected or per-row storage writes raise
(those exceptions being caught inside the loop), but on a parse failure
the handler returns with the file still on disk. -/
theorem c6_cleanup_paths (persist : Nat → Option String) (ids : Nat → String)
    (store0 : Store) :
    (∀ rows : List Row,
      (upload_personas_csv (Except.ok rows) persist ids store0).fileRemoved = true)
    ∧ (∀ e : String,
      (upload_personas_csv (Except.error e) persist ids store0).fileRemoved = false) :=
  ⟨fun _ => rfl, fun _ => rfl⟩

theorem fdiv_is_ceil (t L : Int) (hL : 1 ≤ L) :
    t ≤ Int.fdiv (t + L - 1) L * L
    ∧ ∀ m : Int, t ≤ m * L → Int.fdiv (t + L - 1) L ≤ m := by
  have hL0 : (0 : Int) < L := by omega
  rw [Int.fdiv_eq_ediv _ (by omega)]
  constructor
  · have h1 := Int.lt_ediv_add_one_mul_self (t + L - 1) hL0
    have h2 : ((t + L - 1) / L + 1) * L = (t + L - 1) / L * L + L := by ring
    rw [h2] at h1
    have h5 : t < (t + L - 1) / L * L + 1 := by linarith
    exact Int.lt_add_one_iff.mp h5
  · intro m hm
    have h3 : t + L - 1 < (m + 1) * L := by
      have : (m + 1) * L = m * L + L := by ring
      rw [this]
      linarith
    have h4 := (Int.ediv_lt_iff_lt_mul hL0).mpr h3
    exact Int.lt_add_one_iff.mp h4

theorem clampLimit_pos (limit0 : Int) (h : 1 ≤ limit0) :
    1 ≤ clampLimit limit0 ∧ clampLimit limit0 ≤ 10 := by
  unfold clampLimit
  split <;> omega

theorem get_persons_of_pos (store : Store) (limit0 page : Int)
    (h : 1 ≤ clampLimit limit0) :
    get_persons store limit0 page =
      { status := 200, success := true,
        dataLen := ((store.drop ((page - 1) * clampLimit limit0).toNat).take
          (clampLimit limit0).toNat).length,
        total := (store.length : Int), page := page, limit := clampLimit limit0,
        pages := Int.fdiv ((store.length : Int) + clampLimit limit0 - 1)
          (clampLimit limit0) } := by
  unfold get_persons
  have hne : (clampLimit limit0 == 0) = false := by
    have hne' : clampLimit limit0 ≠ 0 := by omega
    simpa using hne'
  simp only [hne, Bool.false_eq_true, if_false]

/-- C7: for every list request with a positive requested limit, the
effective limit is clamped to at most 10, at most 10 documents are
returned, and the reported `pages` is the ceiling of total / limit
(characterised as the least m with total ≤ m * limit); in particular 25
documents at limit 10 report 3 pages. -/
theorem c7_pagination_clamp_and_pages (store : Store) (limit0 page : Int)
    (h : 1 ≤ limit0) :
    (get_persons store limit0 page).limit ≤ 10
    ∧ (get_persons store limit0 page).dataLen ≤ 10
    ∧ (get_persons store limit0 page).total
        ≤ (get_persons store limit0 page).pages * (get_persons store limit0 page).limit
    ∧ (∀ m : Int,
        (get_persons store limit0 page).total ≤ m * (get_persons store limit0 page).limit
        → (get_persons store limit0 page).pages ≤ m)
    ∧ (get_persons exampleStore25 10 1).pages = 3 := by
  obtain ⟨hL1, hL10⟩ := clampLimit_pos limit0 h
  rw [get_persons_of_pos store limit0 page hL1]
  dsimp only
  have hceil := fdiv_is_ceil (store.length : Int) (clampLimit limit0) hL1
  refine ⟨hL10, ?_, hceil.1, hceil.2, by decide⟩
  have htake := List.length_take ((clampLimit limit0).toNat)
    (store.drop ((page - 1) * clampLimit limit0).toNat)
  have : (clampLimit limit0).toNat ≤ 10 := by omega
  omega

/-- Witness for C7: a request with limit 50 against the 25-document store
is clamped to 10 and returns at most 10 documents. -/
theorem c7_pagination_clamp_and_pages_witness :
    (1 : Int) ≤ 50
    ∧ (get_persons exampleStore25 50 1).limit ≤ 10
    ∧ (get_persons exampleStore25 50 1).dataLen ≤ 10 :=
  ⟨by decide,
   (c7_pagination_clamp_and_pages exampleStore25 50 1 (by decide)).1,
   (c7_pagination_clamp_and_pages exampleStore25 50 1 (by decide)).2.1⟩

/-- C9: the limit is clamped only from above — a requested limit of 0 is
kept as 0 — so the `pages` computation divides by zero
(`ZeroDivisionError`), and the handler's except-branch answers a generic
500 with success false instead of a listing. -/
theorem c9_zero_limit_server_fault (store : Store) (page : Int) :
    clampLimit 0 = 0
    ∧ (get_persons store 0 page).status = 500
    ∧ (get_persons store 0 page).success = false :=
  ⟨rfl, rfl, rfl⟩

/-- C8: for a row accepted by the import loop (valid and successfully
persisted under the generated id), `get_person` on that id returns the
stored record — the submitted row after age/status coercion — with the id
added under the key "id", every other field read back verbatim from the
coerced row. -/
theorem c8_import_get_roundtrip (store0 : Store) (n0 : Nat)
    (errs0 : List (Nat × String)) (idx : Nat) (row : Row)
    (ids : Nat → String) (persist : Nat → Option String)
    (hok : (validate_persona_data row).ok = true)
    (hp : persist idx = none) :
    get_person (processRow persist ids idx row ⟨n0, errs0, store0⟩).store (ids idx)
      = some (dictSet (validate_persona_data row).data "id" (Value.str (ids idx)))
    ∧ ∀ f : String, f ≠ "id" →
        assocLookup (dictSet (validate_persona_data row).data "id"
          (Value.str (ids idx))) f
          = assocLookup (validate_persona_data row).data f := by
  constructor
  · unfold processRow
    simp only [hok, if_true, hp]
    unfold get_person storeSet assocLookup
    simp
  · intro f hf
    exact assocLookup_dictSet_ne (validate_persona_data row).data "id" f
      (Value.str (ids idx)) (fun hsym => hf hsym.symm)

/-- Witness for C8: a concrete valid row inserted under id "doc1" is
fetched back as the coerced row plus the id field. -/
theorem c8_import_get_roundtrip_witness :
    (validate_persona_data (sampleRow "34" (Value.str "true"))).ok = true
    ∧ get_person (processRow (fun _ => none) (fun _ => "doc1") 0
          (sampleRow "34" (Value.str "true")) ⟨0, [], []⟩).store "doc1"
        = some (dictSet (validate_persona_data (sampleRow "34" (Value.str "true"))).data
            "id" (Value.str "doc1")) :=
  ⟨by decide,
   (c8_import_get_roundtrip [] 0 [] 0 (sampleRow "34" (Value.str "true"))
     (fun _ => "doc1") (fun _ => none) (by decide) rfl).1⟩
